import Mathlib

/-!
Verification of the optee-teec client layer: the parameter type-encoding
protocol (src/parameter.rs) and the context/session lifecycle wrappers
(src/context.rs), shallowly embedded in Lean.  Machine integers (u32, the
packed 16-bit type word) are modelled as `Nat`; the C union behind
`raw::TEEC_Parameter` is modelled as an inductive whose cross-variant reads
are `Option.none` (the source documents them as undefined behavior); the
opaque TEE driver is modelled as an oracle function supplied to the
operations that call into it.
-/

namespace OpteeTeec

/-- Mirrors the Rust enum `ParamType` (src/parameter.rs, lines 112-150):
the eleven legal parameter kinds with their fixed wire discriminants. -/
inductive ParamType where
  | None
  | ValueInput
  | ValueOutput
  | ValueInout
  | MemrefTempInput
  | MemrefTempOutput
  | MemrefTempInout
  | MemrefWhole
  | MemrefPartialInput
  | MemrefPartialOutput
  | MemrefPartialInout
deriving DecidableEq

/-- The enum discriminant of each `ParamType` variant (`p as u32` in Rust):
the values written in the source enum declaration. -/
def ParamType.toU32 : ParamType → Nat
  | .None => 0
  | .ValueInput => 1
  | .ValueOutput => 2
  | .ValueInout => 3
  | .MemrefTempInput => 5
  | .MemrefTempOutput => 6
  | .MemrefTempInout => 7
  | .MemrefWhole => 0xC
  | .MemrefPartialInput => 0xD
  | .MemrefPartialOutput => 0xE
  | .MemrefPartialInout => 0xF

/-- Mirrors `impl From<u32> for ParamType` (src/parameter.rs, lines 152-169):
a total lookup that sends every unlisted value to `None` via the
wildcard arm; it never fails or errors. -/
def ParamType.fromU32 : Nat → ParamType
  | 0 => ParamType.None
  | 1 => ParamType.ValueInput
  | 2 => ParamType.ValueOutput
  | 3 => ParamType.ValueInout
  | 5 => ParamType.MemrefTempInput
  | 6 => ParamType.MemrefTempOutput
  | 7 => ParamType.MemrefTempInout
  | 0xC => ParamType.MemrefWhole
  | 0xD => ParamType.MemrefPartialInput
  | 0xE => ParamType.MemrefPartialOutput
  | 0xF => ParamType.MemrefPartialInout
  | _ => ParamType.None

/-- Mirrors `pub struct ParamTypes(u32)` (src/parameter.rs, line 171). -/
structure ParamTypes where
  val : Nat
deriving DecidableEq

/-- Mirrors `ParamTypes::new` (src/parameter.rs, lines 174-176):
`(p0 as u32) | (p1 as u32) << 4 | (p2 as u32) << 8 | (p3 as u32) << 12`. -/
def ParamTypes.new (p0 p1 p2 p3 : ParamType) : ParamTypes :=
  ⟨p0.toU32 ||| (p1.toU32 <<< 4) ||| (p2.toU32 <<< 8) ||| (p3.toU32 <<< 12)⟩

/-- Mirrors `ParamTypes::into_flags` (src/parameter.rs, lines 178-185):
each nibble is masked (`0x000f & w`, `0x00f0 & w`, `0x0f00 & w`,
`0xf000 & w`) and fed to the `From<u32>` lookup.  Note the source does
not shift the masked value down before converting. -/
def ParamTypes.into_flags (pt : ParamTypes) :
    ParamType × ParamType × ParamType × ParamType :=
  (ParamType.fromU32 (0x000f &&& pt.val),
   ParamType.fromU32 (0x00f0 &&& pt.val),
   ParamType.fromU32 (0x0f00 &&& pt.val),
   ParamType.fromU32 (0xf000 &&& pt.val))

/-- Mirrors `impl From<u32> for ParamTypes` (src/parameter.rs, lines
188-192): the raw word is stored as-is. -/
def ParamTypes.ofU32 (w : Nat) : ParamTypes := ⟨w⟩

/-- Model of the C union `raw::TEEC_Parameter`: its state is either all-zero
bytes (`mem::zeroed()`), a written value pair `{a, b}`, or a written
temporary memory reference `{buffer, size}` (the pointer modelled as a
`Nat` address).  Reading the variant that was not written is undefined
behavior in the source (spec §3) and is modelled as `Option.none`;
zeroed bytes read back as the value `(0, 0)` or as a null buffer. -/
inductive TEEC_Parameter where
  | zeroed
  | value (a b : Nat)
  | tmpref (buffer size : Nat)
deriving DecidableEq

/-- Reading the union through its `value` field (`raw.value.a`, `raw.value.b`). -/
def TEEC_Parameter.readValue : TEEC_Parameter → Option (Nat × Nat)
  | .zeroed => Option.some (0, 0)
  | .value a b => Option.some (a, b)
  | .tmpref _ _ => Option.none

/-- Reading the union through its `tmpref.buffer` field. -/
def TEEC_Parameter.readTmpref : TEEC_Parameter → Option Nat
  | .zeroed => Option.some 0
  | .value _ _ => Option.none
  | .tmpref buffer _ => Option.some buffer

/-- Mirrors `pub struct Parameter` (src/parameter.rs, lines 37-40). -/
structure Parameter where
  raw : TEEC_Parameter
  param_type : ParamType
deriving DecidableEq

/-- Mirrors `Parameter::new` (src/parameter.rs, lines 43-49): a zeroed raw
union and `param_type: ParamType::None`. -/
def Parameter.new : Parameter :=
  ⟨TEEC_Parameter.zeroed, ParamType.None⟩

/-- Mirrors `Parameter::from_value` (src/parameter.rs, lines 51-59). -/
def Parameter.from_value (a b : Nat) (param_type : ParamType) : Parameter :=
  ⟨TEEC_Parameter.value a b, param_type⟩

/-- Mirrors `Parameter::from_tmpref` (src/parameter.rs, lines 61-72). -/
def Parameter.from_tmpref (buffer size : Nat) (param_type : ParamType) : Parameter :=
  ⟨TEEC_Parameter.tmpref buffer size, param_type⟩

/-- Mirrors `Parameter::value` (src/parameter.rs, lines 81-83). -/
def Parameter.value (p : Parameter) : Option (Nat × Nat) :=
  p.raw.readValue

/-- Mirrors `Parameter::set_value` (src/parameter.rs, lines 85-90): both
32-bit fields of the union's value view are overwritten, so afterwards
the union holds exactly the pair `(a, b)`. -/
def Parameter.set_value (p : Parameter) (a b : Nat) : Parameter :=
  { p with raw := TEEC_Parameter.value a b }

/-- Mirrors `Parameter::tmpref` (src/parameter.rs, lines 92-96). -/
def Parameter.tmpref (p : Parameter) : Option Nat :=
  p.raw.readTmpref

/-- Mirrors `Parameter::set_param_type` (src/parameter.rs, lines 98-100):
only the `param_type` field is assigned. -/
def Parameter.set_param_type (p : Parameter) (t : ParamType) : Parameter :=
  { p with param_type := t }

/-- Status word returned by the driver primitives: the protocol's single
success sentinel is `TEEC_SUCCESS = 0` (spec §6: "a single success
sentinel and an open set of failure codes"). -/
def TEEC_SUCCESS : Nat := 0

/-- Modelled from the spec: the crate's error type (crate root, not under
src/).  Spec §7 names a single driver-error kind and §4.4 says a failure
"returns a typed error carrying the driver's raw status code"; the only
constructor the code under src/ reaches is `Error::from_raw_error(code)`,
which receives the raw status code alone. -/
structure Error where
  code : Nat
deriving DecidableEq

/-- Modelled from the spec: `Error::from_raw_error` wraps the driver's raw
status code into the typed error. -/
def Error.from_raw_error (code : Nat) : Error := ⟨code⟩

/-- Modelled from the spec: `ConnectionMethods::LoginPublic` (crate root,
not under src/), the public/anonymous login connection method — "the only
method this layer currently supports" (spec §4.4); its wire value is the
protocol's public-login constant 0. -/
def ConnectionMethods.LoginPublic : Nat := 0

/-- Mirrors `raw::TEEC_Context` as initialized in `Context::new_raw`
(src/context.rs, line 17): a driver file descriptor and the
shared-memory-registration flag. -/
structure TEEC_Context where
  fd : Int
  reg_mem : Bool
deriving DecidableEq

/-- Mirrors `pub struct Context` (src/context.rs, lines 7-9). -/
structure Context where
  raw : TEEC_Context
deriving DecidableEq

/-- Mirrors `raw::TEEC_Session` as far as observable here: the opaque
session identifier the driver assigns (the back-pointer to the context is
a raw address with no observable content in this layer). -/
structure TEEC_Session where
  session_id : Nat
deriving DecidableEq

/-- Mirrors `pub struct Session` via `Session::from_raw` (crate root): it
stores the raw session handle produced by the driver. -/
structure Session where
  raw : TEEC_Session
deriving DecidableEq

/-- Mirrors `Session::from_raw`. -/
def Session.from_raw (raw : TEEC_Session) : Session := ⟨raw⟩

/-- Mirrors `Context::new_raw` (src/context.rs, lines 16-24).  The opaque
driver primitive `TEEC_InitializeContext` is an oracle taking the context
structure built from `fd` and `reg_mem` and returning the status word
together with the (possibly driver-written) context.  On `TEEC_SUCCESS`
the context is wrapped; on any other code a typed error carrying that
code is returned and no `Context` exists. -/
def Context.new_raw (fd : Int) (reg_mem : Bool)
    (driver : TEEC_Context → Nat × TEEC_Context) : Except Error Context :=
  let r := driver ⟨fd, reg_mem⟩
  if r.1 = TEEC_SUCCESS then Except.ok ⟨r.2⟩
  else Except.error (Error.from_raw_error r.1)

/-- Mirrors `Context::new` (src/context.rs, lines 12-14):
`Context::new_raw(0, true)`. -/
def Context.new (driver : TEEC_Context → Nat × TEEC_Context) :
    Except Error Context :=
  Context.new_raw 0 true driver

/-- The 128-bit trusted-application identifier, opaque at this layer. -/
structure Uuid where
  val : Nat
deriving DecidableEq

/-- The argument record this layer hands to the driver's open-session
primitive `TEEC_OpenSession` (src/context.rs, lines 37-45): the UUID, the
connection-method word, the extra connection data pointer and the
pre-built operation pointer (both `Option.none` when null). -/
structure OpenSessionCall where
  uuid : Uuid
  connection_method : Nat
  connection_data : Option Nat
  operation : Option Nat
deriving DecidableEq

/-- What the opaque driver reports back from `TEEC_OpenSession`: the status
word, the value written through the `err_origin` out-parameter, and the
session identifier written into the session handle. -/
structure DriverOpenResult where
  status : Nat
  error_origin : Nat
  session_id : Nat
deriving DecidableEq

/-- The observable outcome of `Context::open_session`: the call it issued
to the driver, and the `Result<Session>` it returned. -/
structure OpenSessionOutcome where
  call : OpenSessionCall
  result : Except Error Session

/-- Mirrors `Context::open_session` (src/context.rs, lines 30-50).  The
driver oracle receives exactly the arguments the source passes: the UUID,
`ConnectionMethods::LoginPublic as u32`, a null connection-data pointer
and a null operation pointer.  On `TEEC_SUCCESS` the driver-written
session handle is wrapped; on any other code the source returns
`Err(Error::from_raw_error(code))` — built from the status code alone,
while the `err_origin` value the driver wrote is dropped. -/
def Context.open_session (_ctx : Context) (uuid : Uuid)
    (driver : OpenSessionCall → DriverOpenResult) : OpenSessionOutcome :=
  let call : OpenSessionCall :=
    ⟨uuid, ConnectionMethods.LoginPublic, Option.none, Option.none⟩
  let r := driver call
  ⟨call,
   if r.status = TEEC_SUCCESS then
     Except.ok (Session.from_raw ⟨r.session_id⟩)
   else
     Except.error (Error.from_raw_error r.status)⟩

/-! Helper lemmas shared by the claim theorems. -/

/-- The wildcard arm of the `From<u32>` lookup: every value at or above 16
falls through every listed pattern and decodes to `None`. -/
lemma fromU32_of_ge_16 (n : Nat) : ParamType.fromU32 (n + 16) = ParamType.None := rfl

/-- Masking with a constant below `2 ^ 16` only reads the low 16 bits of the
other operand. -/
lemma and_low16 (m w : Nat) (hm : m < 2 ^ 16) : m &&& w = m &&& (w % 2 ^ 16) := by
  apply Nat.eq_of_testBit_eq
  intro i
  rw [Nat.testBit_and, Nat.testBit_and, Nat.testBit_mod_two_pow]
  by_cases hi : i < 16
  · simp [hi]
  · have hmb : m.testBit i = false := by
      apply Nat.testBit_lt_two_pow
      calc m < 2 ^ 16 := hm
        _ ≤ 2 ^ i := Nat.pow_le_pow_right (by norm_num) (by omega)
    simp [hmb]

/-! Claim theorems. -/

/-- C1: evaluating pack followed by unpack at the four tags
`(None, ValueInput, None, None)` returns `(None, None, None, None)`, not
the original tags.  The packed word is `0x0010`; `into_flags` feeds the
masked-but-unshifted value `0x00f0 & 0x0010 = 0x10 = 16` to the
`From<u32>` lookup, whose wildcard arm yields `None`, so every nonzero
tag in slots 1-3 is lost and the round-trip fails. -/
theorem into_flags_not_inverse_of_new :
    (ParamTypes.new ParamType.None ParamType.ValueInput
        ParamType.None ParamType.None).into_flags
      = (ParamType.None, ParamType.None, ParamType.None, ParamType.None)
    ∧ (ParamTypes.new ParamType.None ParamType.ValueInput
        ParamType.None ParamType.None).into_flags
      ≠ (ParamType.None, ParamType.ValueInput, ParamType.None, ParamType.None) := by
  decide

/-- C3: each of the reserved nibble values 0x4, 0x8, 0x9, 0xA, 0xB decodes
to `None`; the conversion is a total function into `ParamType` (it has no
error outcome for any input). -/
theorem fromU32_reserved_nibbles_None :
    ParamType.fromU32 0x4 = ParamType.None
    ∧ ParamType.fromU32 0x8 = ParamType.None
    ∧ ParamType.fromU32 0x9 = ParamType.None
    ∧ ParamType.fromU32 0xA = ParamType.None
    ∧ ParamType.fromU32 0xB = ParamType.None := by
  decide

/-- C4: for every pair `(a, b)` and every type tag, `from_value(a, b, t)`
followed by `value()` reads back exactly `(a, b)` (and the tag is stored
as given); and on every parameter, `set_value(a, b)` followed by
`value()` reads back exactly `(a, b)`.  In particular this holds at
`(7, 42, ValueInout)` and at `set_value(1, 2)`. -/
theorem from_value_set_value_value_roundtrip (a b : Nat) (t : ParamType) (p : Parameter) :
    (Parameter.from_value a b t).value = Option.some (a, b)
    ∧ (Parameter.from_value a b t).param_type = t
    ∧ (p.set_value a b).value = Option.some (a, b) :=
  ⟨rfl, rfl, rfl⟩

/-- C6: packing is order-sensitive — `ValueInput` in slot 0 encodes to the
word 0x0001 while `ValueInput` in slot 1 encodes to 0x0010, and the two
packed words are distinct. -/
theorem new_packing_order_sensitive :
    (ParamTypes.new ParamType.ValueInput ParamType.None
        ParamType.None ParamType.None).val = 0x0001
    ∧ (ParamTypes.new ParamType.None ParamType.ValueInput
        ParamType.None ParamType.None).val = 0x0010
    ∧ (ParamTypes.new ParamType.ValueInput ParamType.None
        ParamType.None ParamType.None).val
      ≠ (ParamTypes.new ParamType.None ParamType.ValueInput
        ParamType.None ParamType.None).val := by
  decide

/-- C7: decoding a packed type word is total and depends only on the low 16
bits of the raw u32 — `ParamTypes::from(w).into_flags()` is unchanged by
reducing `w` modulo `2 ^ 16` — and the nibble decoder sends every value
that is not one of the eleven legal tags to `None` (whenever the decode
result is not `None`, the input was exactly that tag's wire value). -/
theorem into_flags_total_low16 :
    (∀ w : Nat, (ParamTypes.ofU32 w).into_flags
      = (ParamTypes.ofU32 (w % 2 ^ 16)).into_flags)
    ∧ (∀ v : Nat, ParamType.fromU32 v = ParamType.None
      ∨ (ParamType.fromU32 v).toU32 = v) := by
  constructor
  · intro w
    show (_, _, _, _) = (_, _, _, _)
    rw [ParamTypes.ofU32, ParamTypes.ofU32,
      and_low16 0x000f w (by norm_num), and_low16 0x00f0 w (by norm_num),
      and_low16 0x0f00 w (by norm_num), and_low16 0xf000 w (by norm_num)]
  · intro v
    rcases Nat.lt_or_ge v 16 with h | h
    · interval_cases v <;> simp [ParamType.fromU32, ParamType.toU32]
    · left
      obtain ⟨n, rfl⟩ : ∃ n, v = n + 16 := ⟨v - 16, by omega⟩
      exact fromU32_of_ge_16 n

/-- C9: `set_param_type(t)` changes only the type tag — the raw union
payload is untouched, so `value()` and `tmpref()` read the same data
before and after, and the tag afterwards is exactly `t`. -/
theorem set_param_type_frame (p : Parameter) (t : ParamType) :
    (p.set_param_type t).raw = p.raw
    ∧ (p.set_param_type t).value = p.value
    ∧ (p.set_param_type t).tmpref = p.tmpref
    ∧ (p.set_param_type t).param_type = t :=
  ⟨rfl, rfl, rfl, rfl⟩

/-- C10: a freshly constructed parameter has tag `None` and a zeroed
payload, so `value()` reads `(0, 0)`. -/
theorem new_parameter_zeroed :
    Parameter.new.value = Option.some (0, 0)
    ∧ Parameter.new.param_type = ParamType.None :=
  ⟨rfl, rfl⟩

/-- C2 counterexample: with the driver's open-session primitive failing
with status 0xFFFF0008 ("item not found") and error origin 4 (TEE),
`open_session` returns exactly the same error as when the driver reports
origin 3 — the value the driver wrote through the `err_origin`
out-parameter is discarded, so the returned error cannot expose the
origin; it carries only the status code. -/
theorem open_session_origin_not_exposed_cex :
    (Context.open_session ⟨⟨0, true⟩⟩ ⟨0⟩
        (fun _ => ⟨0xFFFF0008, 4, 0⟩)).result
      = (Context.open_session ⟨⟨0, true⟩⟩ ⟨0⟩
        (fun _ => ⟨0xFFFF0008, 3, 0⟩)).result
    ∧ (Context.open_session ⟨⟨0, true⟩⟩ ⟨0⟩
        (fun _ => ⟨0xFFFF0008, 4, 0⟩)).result
      = Except.error (Error.from_raw_error 0xFFFF0008) :=
  ⟨rfl, rfl⟩

/-- C2 (amended): whenever the driver's open-session primitive returns a
non-success status, `open_session` returns an error exposing exactly that
status code — the error origin the driver reported is discarded, not
exposed — and no Session value is produced. -/
theorem open_session_error_exposes_code (ctx : Context) (uuid : Uuid)
    (driver : OpenSessionCall → DriverOpenResult)
    (h : (driver ⟨uuid, ConnectionMethods.LoginPublic,
        Option.none, Option.none⟩).status ≠ TEEC_SUCCESS) :
    (Context.open_session ctx uuid driver).result
      = Except.error (Error.from_raw_error
        (driver ⟨uuid, ConnectionMethods.LoginPublic,
          Option.none, Option.none⟩).status) := by
  show (if _ = TEEC_SUCCESS then _ else _) = _
  rw [if_neg h]

/-- Witness for C2's amended theorem at a concrete failing driver. -/
theorem open_session_error_exposes_code_witness :
    (Context.open_session ⟨⟨0, true⟩⟩ ⟨0⟩
        (fun _ => ⟨0xFFFF0008, 4, 0⟩)).result
      = Except.error (Error.from_raw_error 0xFFFF0008) :=
  open_session_error_exposes_code ⟨⟨0, true⟩⟩ ⟨0⟩
    (fun _ => ⟨0xFFFF0008, 4, 0⟩) (by decide)

/-- C5: context construction is all-or-nothing.  `new` is exactly
`new_raw(0, true)`; when the driver's initialize primitive returns
`TEEC_SUCCESS` a Context wrapping the driver-written handle is produced
(the Open state), and when it returns any other code the result is a
typed error carrying exactly that raw status code — an `Except.error`
holds no Context, so no partially-initialized Context is observable. -/
theorem new_raw_all_or_nothing (fd : Int) (reg_mem : Bool)
    (driver : TEEC_Context → Nat × TEEC_Context) :
    (Context.new driver = Context.new_raw 0 true driver)
    ∧ ((driver ⟨fd, reg_mem⟩).1 = TEEC_SUCCESS →
      Context.new_raw fd reg_mem driver = Except.ok ⟨(driver ⟨fd, reg_mem⟩).2⟩)
    ∧ ((driver ⟨fd, reg_mem⟩).1 ≠ TEEC_SUCCESS →
      Context.new_raw fd reg_mem driver
        = Except.error (Error.from_raw_error (driver ⟨fd, reg_mem⟩).1)) := by
  refine ⟨rfl, fun h => ?_, fun h => ?_⟩
  · show (if _ = TEEC_SUCCESS then _ else _) = _
    rw [if_pos h]
  · show (if _ = TEEC_SUCCESS then _ else _) = _
    rw [if_neg h]

/-- Witness for C5 at a concrete succeeding driver and a concrete failing
driver (status 0xFFFF000C, "out of memory"). -/
theorem new_raw_all_or_nothing_witness :
    Context.new_raw 0 true (fun c => (TEEC_SUCCESS, c)) = Except.ok ⟨⟨0, true⟩⟩
    ∧ Context.new_raw 1 false (fun c => (0xFFFF000C, c))
      = Except.error (Error.from_raw_error 0xFFFF000C) :=
  ⟨(new_raw_all_or_nothing 0 true (fun c => (TEEC_SUCCESS, c))).2.1 rfl,
   (new_raw_all_or_nothing 1 false (fun c => (0xFFFF000C, c))).2.2 (by decide)⟩

/-- C8: for every context, UUID and driver behavior, `open_session` invokes
the driver's open-session primitive with exactly the UUID, the
public/anonymous login connection method, a null extra-login-data
pointer, and a null operation pointer. -/
theorem open_session_call_shape (ctx : Context) (uuid : Uuid)
    (driver : OpenSessionCall → DriverOpenResult) :
    (Context.open_session ctx uuid driver).call
      = ⟨uuid, ConnectionMethods.LoginPublic, Option.none, Option.none⟩ :=
  rfl

end OpteeTeec
